import Mathlib

deriving instance DecidableEq for Except

/-!
Verification of the bundle-adjustment test harness (`ba_test.cc`).

This file gives a shallow embedding, in Lean 4, of the bundle-adjustment
core of the repository: option parsing for the outlier options, the solver
strategy selection, the `BundleAdjustmentModel` parameter store, the
iteration loop `run_bundle_adjustment`, the outlier-removal step
`remove_outliers`, and the two-pass orchestration `adjust_bundles`.

C++ doubles are modelled as exact rationals (`ℚ`); file contents are
modelled as lists of written rows; the external solver is modelled as an
oracle stream of step results; the external `cnet_editor` process and the
filesystem checks around it are modelled by an explicit world record.
-/

namespace BaTest

/-! ## Basic vector types

`camera_vector_t = Vector<double,6>` (3 position corrections followed by
3 Euler-angle rotation corrections) and `point_vector_t = Vector<double,3>`. -/

/-- Embedding of `Vector<double,6>`: fields `c0 c1 c2` are the position correction,
`c3 c4 c5` the Euler-angle pose correction. -/
structure Vec6 where
  c0 : ℚ
  c1 : ℚ
  c2 : ℚ
  c3 : ℚ
  c4 : ℚ
  c5 : ℚ
deriving DecidableEq, Repr

/-- Embedding of `Vector<double,3>`. -/
structure Vec3 where
  x : ℚ
  y : ℚ
  z : ℚ
deriving DecidableEq, Repr

/-- Default-constructed `Vector<double,6>` (all zeros). -/
def zeroVec6 : Vec6 := ⟨0, 0, 0, 0, 0, 0⟩

/-- Default-constructed `Vector<double,3>` (all zeros). -/
def zeroVec3 : Vec3 := ⟨0, 0, 0⟩

/-! ## Control network (external data model, as used by `ba_test.cc`) -/

/-- The `ControlPoint::Type` classification used by the code
(`GroundControlPoint` vs. ordinary tie points). -/
inductive ControlPointType where
  | GroundControlPoint
  | TiePoint
deriving DecidableEq, Repr

/-- A control measure: an observation of a point in one image.
`image_id` is the camera index, `px`/`py` the measured pixel. -/
structure ControlMeasure where
  image_id : ℕ
  px : ℚ
  py : ℚ
deriving DecidableEq, Repr

/-- A control point: a classification, a 3D position, and its measures. -/
structure ControlPoint where
  ptype : ControlPointType
  position : Vec3
  measures : List ControlMeasure
deriving DecidableEq, Repr

/-- A control network is an ordered list of control points. -/
abbrev ControlNetwork := List ControlPoint

/-! ## VisionWorkbench exceptions thrown by the embedded code -/

/-- The `vw` exception kinds raised by the code under study. -/
inductive VwErr where
  | ioErr (msg : String)
  | logicErr (msg : String)
  | argumentErr (msg : String)
deriving DecidableEq, Repr

/-! ## Bundle-adjustment type selection (`string_to_ba_type`) -/

/-- The `enum BundleAdjustmentT`. -/
inductive BundleAdjustmentT where
  | REF
  | SPARSE
  | ROBUST_REF
  | ROBUST_SPARSE
  | SPARSE_HUBER
  | SPARSE_CAUCHY
deriving DecidableEq, Repr

/-- The C-locale `tolower`: uppercase ASCII letters are shifted to
lowercase, every other character is unchanged. -/
def c_tolower (ch : Char) : Char :=
  if 'A' ≤ ch ∧ ch ≤ 'Z' then Char.ofNat (ch.toNat + 32) else ch

/-- The lowercasing pass `std::transform(s.begin(), s.end(), s.begin(), tolower)`. -/
def str_tolower (s : String) : String := ⟨s.data.map c_tolower⟩

/-- Embedding of `string_to_ba_type`: lowercases the input, then matches it against the
five non-default names; anything else yields the initial value `REF`. -/
def string_to_ba_type (s : String) : BundleAdjustmentT :=
  let t := str_tolower s
  if t = "sparse" then .SPARSE
  else if t = "sparse_huber" then .SPARSE_HUBER
  else if t = "sparse_cauchy" then .SPARSE_CAUCHY
  else if t = "robust_ref" then .ROBUST_REF
  else if t = "robust_sparse" then .ROBUST_SPARSE
  else .REF

/-! ## The outlier slice of `parse_options` -/

/-- The slice of the parsed command line relevant to outlier removal:
whether `--outlier-sd-cutoff` was explicitly supplied (and with which
value), and whether the `--remove-outliers` switch was present. -/
structure OutlierCmdLine where
  outlier_sd_cutoff : Option ℚ
  remove_outliers_flag : Bool
deriving DecidableEq, Repr

/-- The outlier-related assignments of `parse_options`: the cutoff defaults
to 2; `remove_outliers` starts from the boolean switch, and is forced to
`true` whenever the cutoff option was not defaulted (i.e. was supplied
explicitly).  Returns `(remove_outliers, outlier_sd_cutoff)`. -/
def parse_outlier_opts (c : OutlierCmdLine) : Bool × ℚ :=
  let cutoff := c.outlier_sd_cutoff.getD 2
  let remove := c.remove_outliers_flag
  let remove := if c.outlier_sd_cutoff.isSome then true else remove
  (remove, cutoff)

/-! ## `remove_outliers` -/

/-- The world state observed by `remove_outliers`: existence/directory
status of the mean-errors file and of the input control network file, and
the value returned by `system()` for the `cnet_editor` invocation. -/
structure OutlierWorld where
  mean_errors_exists : Bool
  mean_errors_is_dir : Bool
  cnet_exists : Bool
  cnet_is_dir : Bool
  system_result : ℤ
deriving DecidableEq, Repr

/-- Embedding of `remove_outliers`: checks the mean-errors file and the control-network
file exist and are regular files (throwing `IOErr` otherwise), runs
`cnet_editor` through `system()`, and throws `LogicErr` only when
`system()` itself returns `-1`.  Any other return value — including a
non-zero exit status of `cnet_editor` — is accepted. -/
def remove_outliers (w : OutlierWorld) : Except VwErr Unit :=
  if ¬w.mean_errors_exists ∨ w.mean_errors_is_dir then
    .error (.ioErr "Mean errors file does not exist or is not a regular file")
  else if ¬w.cnet_exists ∨ w.cnet_is_dir then
    .error (.ioErr "Control network file does not exist or is not a regular file")
  else if w.system_result = -1 then
    .error (.logicErr "system(cnet_editor ...) failed")
  else
    .ok ()

/-! ## `BundleAdjustmentModel` (the parameter store)

The camera list is opaque to the model (cameras are only stored and
counted here), so the model is polymorphic in the camera type `Cam`. -/

variable {Cam : Type}

/-- The state of `BundleAdjustmentModel`: stored cameras and network, the
camera-parameter adjustments `a` with targets `a_target`, the point
coordinates `b` with targets `b_target`, the observation count, and the
three regularization sigmas. -/
structure BAModel (Cam : Type) where
  m_cameras : List Cam
  m_network : ControlNetwork
  a : List Vec6
  b : List Vec3
  a_target : List Vec6
  b_target : List Vec3
  m_num_pixel_observations : ℕ
  m_camera_position_sigma : ℚ
  m_camera_pose_sigma : ℚ
  m_gcp_sigma : ℚ
deriving DecidableEq, Repr

/-- The sanity check of the `BundleAdjustmentModel` constructor: every
measure of every control point must have `image_id` below the camera
count. -/
def networkIdsInRange (cameras : List Cam) (network : ControlNetwork) : Bool :=
  network.all fun cp => cp.measures.all fun cm => cm.image_id < cameras.length

/-- The `BundleAdjustmentModel` constructor.  It asserts (`VW_ASSERT`,
throwing `ArgumentErr`) that no measure has an `image_id` at or beyond the
camera count, counts the pixel observations, initializes `a` and
`a_target` to all-zero vectors (one per camera), and initializes `b` and
`b_target` to the positions stored in the control network (one per
point). -/
def BAModel.make (cameras : List Cam) (network : ControlNetwork)
    (camera_position_sigma camera_pose_sigma gcp_sigma : ℚ) :
    Except VwErr (BAModel Cam) :=
  if networkIdsInRange cameras network then
    .ok
      { m_cameras := cameras
        m_network := network
        a := List.replicate cameras.length zeroVec6
        b := network.map (·.position)
        a_target := List.replicate cameras.length zeroVec6
        b_target := network.map (·.position)
        m_num_pixel_observations := (network.map (·.measures.length)).sum
        m_camera_position_sigma := camera_position_sigma
        m_camera_pose_sigma := camera_pose_sigma
        m_gcp_sigma := gcp_sigma }
  else
    .error (.argumentErr "Invalid control point: has image_id() larger than camera vector")

/-- Accessor `num_cameras()`. -/
def BAModel.num_cameras (m : BAModel Cam) : ℕ := m.a.length

/-- Accessor `num_points()`. -/
def BAModel.num_points (m : BAModel Cam) : ℕ := m.b.length

/-- Accessor `cameras()`. -/
def BAModel.cameras (m : BAModel Cam) : List Cam := m.m_cameras

/-! ## Precision (inverse-covariance) matrices -/

/-- A 6×6 matrix of rationals. -/
def Mat6 : Type := Fin 6 → Fin 6 → ℚ

/-- A 3×3 matrix of rationals. -/
def Mat3 : Type := Fin 3 → Fin 3 → ℚ

/-- The default-constructed (zero) 6×6 matrix. -/
def zeroMat6 : Mat6 := fun _ _ => 0

/-- The default-constructed (zero) 3×3 matrix. -/
def zeroMat3 : Mat3 := fun _ _ => 0

/-- Assignment `result(i,j) = v` on a 6×6 matrix. -/
def mat6Set (M : Mat6) (i j : Fin 6) (v : ℚ) : Mat6 :=
  fun i' j' => if i' = i ∧ j' = j then v else M i' j'

/-- Assignment `result(i,j) = v` on a 3×3 matrix. -/
def mat3Set (M : Mat3) (i j : Fin 3) (v : ℚ) : Mat3 :=
  fun i' j' => if i' = i ∧ j' = j then v else M i' j'

/-- Embedding of `A_inverse_covariance(j)`: starts from a default (zero) matrix and
assigns the six diagonal entries, `1/sigma²` of the camera-position sigma
for the first three and of the camera-pose sigma for the last three.  The
camera index is ignored, and the matrix is rebuilt from the current sigma
fields on each call. -/
def BAModel.A_inverse_covariance (m : BAModel Cam) (_j : ℕ) : Mat6 :=
  let r := zeroMat6
  let r := mat6Set r 0 0 (1 / m.m_camera_position_sigma ^ 2)
  let r := mat6Set r 1 1 (1 / m.m_camera_position_sigma ^ 2)
  let r := mat6Set r 2 2 (1 / m.m_camera_position_sigma ^ 2)
  let r := mat6Set r 3 3 (1 / m.m_camera_pose_sigma ^ 2)
  let r := mat6Set r 4 4 (1 / m.m_camera_pose_sigma ^ 2)
  let r := mat6Set r 5 5 (1 / m.m_camera_pose_sigma ^ 2)
  r

/-- Embedding of `B_inverse_covariance(i)`: starts from a default (zero) matrix and
assigns the three diagonal entries to `1/sigma²` of the ground-control
sigma.  The point index is ignored, and the matrix is rebuilt from the
current sigma field on each call. -/
def BAModel.B_inverse_covariance (m : BAModel Cam) (_i : ℕ) : Mat3 :=
  let r := zeroMat3
  let r := mat3Set r 0 0 (1 / m.m_gcp_sigma ^ 2)
  let r := mat3Set r 1 1 (1 / m.m_gcp_sigma ^ 2)
  let r := mat3Set r 2 2 (1 / m.m_gcp_sigma ^ 2)
  r

/-! ## Per-iteration snapshot writers

File contents are modelled as lists of rows; each row is an entity index
followed by three numeric columns, matching the tab-separated output. -/

/-- One written row: entity index and three numeric columns. -/
abbrev SnapRow := ℕ × ℚ × ℚ × ℚ

/-- The six rows `write_adjusted_cameras_append` emits for camera `j`: the
`C` row holds the position correction `(c0,c1,c2)` of the camera vector;
`A`, `H`, `V` are the fixed axis vectors; `O` and `R` are the
default-constructed (zero) vectors of the fresh `CAHVORModel`.  The
Euler-angle pose correction is computed in the source but never written. -/
def cahvorRows (j : ℕ) (v : Vec6) : List SnapRow :=
  [ (j, v.c0, v.c1, v.c2),
    (j, 1, 0, 0),
    (j, 0, 1, 0),
    (j, 0, 0, 1),
    (j, 0, 0, 0),
    (j, 0, 0, 0) ]

/-- The camera loop of `write_adjusted_cameras_append`, with `j` the
running camera index. -/
def wacaGo (j : ℕ) : List Vec6 → List SnapRow
  | [] => []
  | v :: rest => cahvorRows j v ++ wacaGo (j + 1) rest

/-- Embedding of `write_adjusted_cameras_append`: for each camera index `j` in order,
append the six CAHVOR rows built from `a[j]`. -/
def write_adjusted_cameras_append (a : List Vec6) : List SnapRow :=
  wacaGo 0 a

/-- The point loop of `write_points_append`, with `i` the running point
index. -/
def wpaGo (i : ℕ) : List Vec3 → List SnapRow
  | [] => []
  | v :: rest => (i, v.x, v.y, v.z) :: wpaGo (i + 1) rest

/-- Embedding of `write_points_append`: one row per point `i`, holding the three
components of `b[i]`. -/
def write_points_append (b : List Vec3) : List SnapRow :=
  wpaGo 0 b

/-! ## The solver strategy as an oracle

One `adjuster.update(abs_tol, rel_tol)` call returns an overall delta,
writes the two tolerances through its reference arguments, and rewrites
the model's parameter vectors in place.  A whole run is driven by a stream
`ℕ → SolverStep`, where `steps k` describes the `(k+1)`-th update. -/

/-- The observable effect of one solver update: the returned overall
delta, the tolerances written through the reference arguments, and the
parameter vectors the solver stores into the model (read per index, so the
array sizes are preserved). -/
structure SolverStep where
  delta : ℚ
  abs_tol : ℚ
  rel_tol : ℚ
  newA : ℕ → Vec6
  newB : ℕ → Vec3

/-- The adjuster state: its iteration counter, the optional
user-requested lambda and control settings (`none` while the
corresponding setter has not been called, leaving the solver library's
default), the loss-function parameter it was built with, and the model it
mutates. -/
structure Adjuster (Cam : Type) where
  iterations : ℕ
  lambda : Option ℚ
  control : Option ℤ
  cost : ℚ
  model : BAModel Cam
deriving DecidableEq, Repr

/-- The construction `AdjusterT bundle_adjuster(ba_model, cost_func)`: a fresh adjuster
with iteration count 0 and no lambda/control setting applied yet. -/
def mkAdjuster (m : BAModel Cam) (cost : ℚ) : Adjuster Cam :=
  { iterations := 0, lambda := none, control := none, cost := cost, model := m }

/-- The setter `set_lambda`. -/
def Adjuster.set_lambda (adj : Adjuster Cam) (l : ℚ) : Adjuster Cam :=
  { adj with lambda := some l }

/-- The setter `set_control`. -/
def Adjuster.set_control (adj : Adjuster Cam) (c : ℤ) : Adjuster Cam :=
  { adj with control := some c }

/-- One `adjuster.update(...)` call: the iteration counter increments and
the solver stores new parameter vectors into the model (the same number of
vectors as before). -/
def Adjuster.update (adj : Adjuster Cam) (s : SolverStep) : Adjuster Cam :=
  { adj with
    iterations := adj.iterations + 1
    model :=
      { adj.model with
        a := (List.range adj.model.a.length).map s.newA
        b := (List.range adj.model.b.length).map s.newB } }

/-! ## `run_bundle_adjustment` -/

/-- The state threaded through one `run_bundle_adjustment` call: the
adjuster, the accumulated contents of the two append-only snapshot files,
and how many times the reporter's `end_tie_in()` (the finalize step) has
run. -/
structure RunState (Cam : Type) where
  adjuster : Adjuster Cam
  snap_cam : List SnapRow
  snap_pts : List SnapRow
  finalize_count : ℕ
deriving DecidableEq, Repr

/-- The body after a successful `update`: the adjuster steps, and if
`save` is set the current camera and point parameters are appended to the
snapshot files. -/
def rbaStep (save : Bool) (st : RunState Cam) (s : SolverStep) : RunState Cam :=
  let adj := st.adjuster.update s
  { st with
    adjuster := adj
    snap_cam :=
      if save then st.snap_cam ++ write_adjusted_cameras_append adj.model.a else st.snap_cam
    snap_pts :=
      if save then st.snap_pts ++ write_points_append adj.model.b else st.snap_pts }

/-- The `while (overall_delta)` loop of `run_bundle_adjustment`.  Each
pass first tests `overall_delta` (the `while` condition), then breaks when
`iterations() >= max_iter`, `abs_tol < 1e-3` or `rel_tol < 1e-3`, and
otherwise performs one update followed by the optional snapshot writes.

`fuel` is a termination device only: `run_bundle_adjustment` supplies
`fuel = (max_iter - iterations).toNat`, each pass consumes one unit while
the iteration counter grows by one, so `fuel = 0` holds exactly when
`iterations() >= max_iter` — a state in which the loop breaks anyway, so
the extra `fuel` match never changes the computed result. -/
def rbaGo (steps : ℕ → SolverStep) (max_iter : ℤ) (save : Bool) :
    ℕ → RunState Cam → ℚ → ℚ → ℚ → RunState Cam
  | fuel, st, overall_delta, abs_tol, rel_tol =>
    if overall_delta = 0 then st
    else if max_iter ≤ (st.adjuster.iterations : ℤ) ∨ abs_tol < mkRat 1 1000 ∨
        rel_tol < mkRat 1 1000 then st
    else
      match fuel with
      | 0 => st
      | fuel' + 1 =>
        let s := steps st.adjuster.iterations
        rbaGo steps max_iter save fuel' (rbaStep save st s) s.delta s.abs_tol s.rel_tol

/-- Embedding of `run_bundle_adjustment`: runs the loop starting from
`abs_tol = rel_tol = 1e10` and `overall_delta = 2`, then invokes the
reporter's `end_tie_in()` once. -/
def run_bundle_adjustment (steps : ℕ → SolverStep) (max_iter : ℤ) (save : Bool)
    (st : RunState Cam) : RunState Cam :=
  let r := rbaGo steps max_iter save ((max_iter - (st.adjuster.iterations : ℤ)).toNat)
      st 2 (10 ^ 10) (10 ^ 10)
  { r with finalize_count := r.finalize_count + 1 }

/-! ## `adjust_bundles` -/

/-- The slice of `ProgramOptions` consumed by `adjust_bundles`. -/
structure AdjustConfig where
  use_user_lambda : Bool
  lambda : ℚ
  control : ℤ
  max_iterations : ℤ
  save_iteration_data : Bool
  remove_outliers : Bool
  outlier_sd_cutoff : ℚ
  camera_position_sigma : ℚ
  camera_pose_sigma : ℚ
  gcp_sigma : ℚ
deriving DecidableEq, Repr

/-- What `adjust_bundles` leaves behind: the final state of the
first-pass run (whose adjuster receives the stray `set_control` call when
outlier removal is enabled), the final state of the second-pass run when
it happened, the second-pass model as freshly constructed (before the
second fit mutates it), and the model the caller's `ba_model` holds at the
end. -/
structure AdjustResult (Cam : Type) where
  first : RunState Cam
  second : Option (RunState Cam)
  model2_initial : Option (BAModel Cam)
  final_model : BAModel Cam
deriving DecidableEq, Repr

/-- Embedding of `adjust_bundles`: configures a fresh adjuster (user lambda if
requested, then `set_control`), runs `run_bundle_adjustment` over it, and,
when `remove_outliers` is set, invokes `remove_outliers` (propagating its
exception), loads the filtered network (`filtered_net`, delivered by the
external loader), builds a brand-new model from the first model's camera
list, the filtered network and the configured sigmas, configures a new
adjuster — the code sets the user lambda on it but then calls
`set_control` on the *first* adjuster again — and runs the loop a second
time, appending to the same snapshot files.  Finally the caller's model is
replaced by the no-outliers model. -/
def adjust_bundles (ba_model : BAModel Cam) (cost : ℚ) (config : AdjustConfig)
    (steps1 steps2 : ℕ → SolverStep) (w : OutlierWorld) (filtered_net : ControlNetwork) :
    Except VwErr (AdjustResult Cam) :=
  let adj1 := mkAdjuster ba_model cost
  let adj1 := if config.use_user_lambda then adj1.set_lambda config.lambda else adj1
  let adj1 := adj1.set_control config.control
  let r1 := run_bundle_adjustment steps1 config.max_iterations config.save_iteration_data
      ⟨adj1, [], [], 0⟩
  if config.remove_outliers then
    match remove_outliers w with
    | .error e => .error e
    | .ok _ =>
      match BAModel.make ba_model.cameras filtered_net
          config.camera_position_sigma config.camera_pose_sigma config.gcp_sigma with
      | .error e => .error e
      | .ok m2 =>
        let adj2 := mkAdjuster m2 cost
        let adj2 := if config.use_user_lambda then adj2.set_lambda config.lambda else adj2
        let adj1' := r1.adjuster.set_control config.control
        let r2 := run_bundle_adjustment steps2 config.max_iterations config.save_iteration_data
            ⟨adj2, r1.snap_cam, r1.snap_pts, r1.finalize_count⟩
        .ok
          { first := { r1 with adjuster := adj1' }
            second := some r2
            model2_initial := some m2
            final_model := r2.adjuster.model }
  else
    .ok { first := r1, second := none, model2_initial := none, final_model := r1.adjuster.model }

/-! ## The loop inputs seen before the `k`-th pass

Before the first pass the loop variables hold `overall_delta = 2` and
`abs_tol = rel_tol = 1e10`; before every later pass they hold the outputs
of the previous update. -/

/-- The `overall_delta` value tested at the top of pass `k`. -/
def inDelta (steps : ℕ → SolverStep) : ℕ → ℚ
  | 0 => 2
  | k + 1 => (steps k).delta

/-- The `abs_tol` value tested at the top of pass `k`. -/
def inAbs (steps : ℕ → SolverStep) : ℕ → ℚ
  | 0 => 10 ^ 10
  | k + 1 => (steps k).abs_tol

/-- The `rel_tol` value tested at the top of pass `k`. -/
def inRel (steps : ℕ → SolverStep) : ℕ → ℚ
  | 0 => 10 ^ 10
  | k + 1 => (steps k).rel_tol

/-- The loop continues past the top of pass `k`: the delta seen there is
non-zero, and none of the break conditions (iteration budget reached,
absolute tolerance below `1e-3`, relative tolerance below `1e-3`)
holds. -/
def contAt (steps : ℕ → SolverStep) (max_iter : ℤ) (k : ℕ) : Prop :=
  inDelta steps k ≠ 0 ∧
  ¬(max_iter ≤ (k : ℤ) ∨ inAbs steps k < mkRat 1 1000 ∨ inRel steps k < mkRat 1 1000)

/-! ## Concrete fixtures used to evaluate the development -/

/-- A one-point network: a ground-control point at `(1,2,3)` observed
once by camera 0. -/
def exNet : ControlNetwork :=
  [⟨ControlPointType.GroundControlPoint, ⟨1, 2, 3⟩, [⟨0, 5, 6⟩]⟩]

/-- The model `BAModel.make [0] exNet 1 1 1` produces (camera type
instantiated at `ℕ`). -/
def exModel : BAModel ℕ :=
  ⟨[0], exNet, [zeroVec6], [⟨1, 2, 3⟩], [zeroVec6], [⟨1, 2, 3⟩], 1, 1, 1, 1⟩

/-- A solver oracle whose every update reports delta 0 and tolerances 1
and zeroes the parameters. -/
def exSteps : ℕ → SolverStep :=
  fun _ => ⟨0, 1, 1, fun _ => zeroVec6, fun _ => zeroVec3⟩

/-- A world in which both dependency artifacts of `remove_outliers` are
regular files and `cnet_editor` exits with status 0. -/
def exWorldOk : OutlierWorld := ⟨true, false, true, false, 0⟩

/-- A world in which both dependency artifacts are regular files but the
external `cnet_editor` process exits with a non-zero status. -/
def exWorldBadExit : OutlierWorld := ⟨true, false, true, false, 2⟩

/-- A world in which the mean-errors file is missing. -/
def exWorldNoErrFile : OutlierWorld := ⟨false, false, true, false, 0⟩

/-- A configuration with outlier removal on, a user lambda and control 1,
and a zero iteration budget. -/
def exCfgControl : AdjustConfig :=
  { use_user_lambda := true, lambda := 5, control := 1, max_iterations := 0,
    save_iteration_data := false, remove_outliers := true, outlier_sd_cutoff := 2,
    camera_position_sigma := 1, camera_pose_sigma := 1, gcp_sigma := 1 }

/-- A configuration with outlier removal on, no user lambda, control 0,
and a zero iteration budget. -/
def exCfgPlain : AdjustConfig :=
  { use_user_lambda := false, lambda := 0, control := 0, max_iterations := 0,
    save_iteration_data := false, remove_outliers := true, outlier_sd_cutoff := 2,
    camera_position_sigma := 1, camera_pose_sigma := 1, gcp_sigma := 1 }

/-- The outcome `adjust_bundles exModel 0 exCfgPlain exSteps exSteps
exWorldOk exNet` computes to. -/
def exResPlain : AdjustResult ℕ :=
  { first := ⟨⟨0, none, some 0, 0, exModel⟩, [], [], 1⟩,
    second := some ⟨⟨0, none, none, 0, exModel⟩, [], [], 2⟩,
    model2_initial := some exModel,
    final_model := exModel }

/-! # Theorems -/

/-- Claim C10: For every input string that is not one of the recognized
solver-strategy names after lowercasing (`"sparse"`, `"sparse_huber"`,
`"sparse_cauchy"`, `"robust_ref"`, `"robust_sparse"`), the
strategy-selection function `string_to_ba_type` returns the reference
strategy `REF` rather than raising an error. -/
theorem claim_C10 (s : String)
    (h : str_tolower s ∉
      (["sparse", "sparse_huber", "sparse_cauchy", "robust_ref", "robust_sparse"] :
        List String)) :
    string_to_ba_type s = BundleAdjustmentT.REF := by
  simp only [List.mem_cons, List.not_mem_nil, or_false, not_or] at h
  obtain ⟨h1, h2, h3, h4, h5⟩ := h
  simp [string_to_ba_type, h1, h2, h3, h4, h5]

/-- Witness for C10 at the misspelled input `"Sprase"`. -/
theorem claim_C10_witness :
    (str_tolower "Sprase" ∉
      (["sparse", "sparse_huber", "sparse_cauchy", "robust_ref", "robust_sparse"] :
        List String)) ∧
    string_to_ba_type "Sprase" = BundleAdjustmentT.REF :=
  ⟨by decide, claim_C10 "Sprase" (by decide)⟩

/-- Claim C9: When `--outlier-sd-cutoff` is supplied with a non-default
value, `parse_options` enables outlier removal even though the
`--remove-outliers` switch is absent; when the cutoff is left at its
default (not supplied) and the switch is absent, removal stays disabled.
(The hypothesis `v ≠ 2` reflects the claim's wording; the code in fact
enables removal for any explicitly supplied value.) -/
theorem claim_C9 (v : ℚ) (_hv : v ≠ 2) :
    (parse_outlier_opts ⟨some v, false⟩).1 = true ∧
    (parse_outlier_opts ⟨none, false⟩).1 = false :=
  ⟨rfl, rfl⟩

/-- Witness for C9 at the explicit cutoff value 3. -/
theorem claim_C9_witness :
    (3 : ℚ) ≠ 2 ∧
    (parse_outlier_opts ⟨some 3, false⟩).1 = true ∧
    (parse_outlier_opts ⟨none, false⟩).1 = false :=
  ⟨by norm_num, claim_C9 3 (by norm_num)⟩

/-- Claim C1, counterexample:  With both dependency artifacts present as
regular files and the external `cnet_editor` process exiting with the
non-zero status 2, `remove_outliers` reports success — the failure is
swallowed, refuting that every non-zero exit status of the external
process is fatal to the cycle — and `adjust_bundles` proceeds to the
second fit. -/
theorem claim_C1_counterexample :
    remove_outliers exWorldBadExit = Except.ok () ∧
    (adjust_bundles exModel 0 exCfgPlain exSteps exSteps exWorldBadExit exNet).map
      (fun r => r.second.isSome) = Except.ok true := by
  decide

/-- Claim C1, amended:  A missing dependency artifact (mean-errors file or
input control-network file) is fatal to the cycle with an `IOErr`, and a
failure to launch the external process (`system()` returning `-1`) is
fatal with a `LogicErr`; each such error is propagated unchanged out of
`adjust_bundles` without retry, and the cycle does not proceed to the
second fit.  But a non-zero exit status of a launched `cnet_editor`
process is not detected: `remove_outliers` succeeds exactly when both
artifacts are regular files and `system()` did not return `-1`. -/
theorem claim_C1_amended (w : OutlierWorld) (model : BAModel Cam) (cost : ℚ)
    (config : AdjustConfig) (s1 s2 : ℕ → SolverStep) (net : ControlNetwork)
    (hrem : config.remove_outliers = true) :
    (remove_outliers w = Except.ok () ↔
      (w.mean_errors_exists = true ∧ w.mean_errors_is_dir = false ∧
        w.cnet_exists = true ∧ w.cnet_is_dir = false ∧ w.system_result ≠ -1)) ∧
    (∀ e, remove_outliers w = Except.error e →
      adjust_bundles model cost config s1 s2 w net = Except.error e) := by
  constructor
  · rcases w with ⟨me, md, ce, cd, sr⟩
    cases me <;> cases md <;> cases ce <;> cases cd <;>
      simp [remove_outliers]
  · intro e he
    simp [adjust_bundles, hrem, he]

/-- Witness for C1 (amended) at a world whose mean-errors file is
missing: the error is propagated out of `adjust_bundles`. -/
theorem claim_C1_amended_witness :
    exCfgPlain.remove_outliers = true ∧
    ((remove_outliers exWorldNoErrFile = Except.ok () ↔
      (exWorldNoErrFile.mean_errors_exists = true ∧
        exWorldNoErrFile.mean_errors_is_dir = false ∧
        exWorldNoErrFile.cnet_exists = true ∧ exWorldNoErrFile.cnet_is_dir = false ∧
        exWorldNoErrFile.system_result ≠ -1)) ∧
    (∀ e, remove_outliers exWorldNoErrFile = Except.error e →
      adjust_bundles exModel 0 exCfgPlain exSteps exSteps exWorldNoErrFile exNet =
        Except.error e)) :=
  ⟨rfl, claim_C1_amended exWorldNoErrFile exModel 0 exCfgPlain exSteps exSteps exNet rfl⟩

/-- The constructor's sanity check, as a proposition. -/
theorem networkIdsInRange_iff (cameras : List Cam) (net : ControlNetwork) :
    networkIdsInRange cameras net = true ↔
      ∀ cp ∈ net, ∀ cm ∈ cp.measures, cm.image_id < cameras.length := by
  simp [networkIdsInRange]

/-- Claim C5: Construction of the parameter model succeeds only if every
observation's camera index is within the range of the camera list: an
out-of-range `image_id` makes `BAModel.make` fail deterministically with
the `ArgumentErr` data-integrity error (the network is neither clamped nor
filtered — on success it is stored unchanged), and on success all stored
observation indices are in range and the camera- and point-parameter
arrays (current and target) have exactly the camera count and the
network's point count as sizes. -/
theorem claim_C5 (cameras : List Cam) (net : ControlNetwork) (s1 s2 s3 : ℚ) :
    ((∃ cp ∈ net, ∃ cm ∈ cp.measures, cameras.length ≤ cm.image_id) →
      BAModel.make cameras net s1 s2 s3 =
        Except.error
          (.argumentErr "Invalid control point: has image_id() larger than camera vector")) ∧
    (∀ m, BAModel.make cameras net s1 s2 s3 = Except.ok m →
      (∀ cp ∈ m.m_network, ∀ cm ∈ cp.measures, cm.image_id < cameras.length) ∧
      m.m_network = net ∧
      m.a.length = cameras.length ∧ m.a_target.length = cameras.length ∧
      m.b.length = net.length ∧ m.b_target.length = net.length) := by
  constructor
  · rintro ⟨cp, hcp, cm, hcm, hge⟩
    have hfalse : ¬ networkIdsInRange cameras net = true := by
      rw [networkIdsInRange_iff]
      intro hall
      exact absurd (hall cp hcp cm hcm) (by omega)
    simp [BAModel.make, hfalse]
  · intro m hm
    rw [BAModel.make] at hm
    by_cases hr : networkIdsInRange cameras net = true
    · rw [if_pos hr] at hm
      cases hm
      refine ⟨?_, rfl, ?_, ?_, ?_, ?_⟩
      · exact (networkIdsInRange_iff cameras net).mp hr
      all_goals simp
    · rw [if_neg hr] at hm
      cases hm

/-- Witness for C5: an empty camera list rejects `exNet`, and a
one-camera list accepts it producing `exModel`. -/
theorem claim_C5_witness :
    ((∃ cp ∈ exNet, ∃ cm ∈ cp.measures, ([] : List ℕ).length ≤ cm.image_id) ∧
      BAModel.make ([] : List ℕ) exNet 1 1 1 =
        Except.error
          (.argumentErr "Invalid control point: has image_id() larger than camera vector")) ∧
    (BAModel.make [(0 : ℕ)] exNet 1 1 1 = Except.ok exModel ∧
      ((∀ cp ∈ exModel.m_network, ∀ cm ∈ cp.measures, cm.image_id < [(0 : ℕ)].length) ∧
        exModel.m_network = exNet ∧
        exModel.a.length = [(0 : ℕ)].length ∧ exModel.a_target.length = [(0 : ℕ)].length ∧
        exModel.b.length = exNet.length ∧ exModel.b_target.length = exNet.length)) :=
  ⟨⟨by decide, (claim_C5 ([] : List ℕ) exNet 1 1 1).1 (by decide)⟩,
    ⟨by decide, (claim_C5 [(0 : ℕ)] exNet 1 1 1).2 exModel (by decide)⟩⟩

/-- Claim C7: For every camera index and every point index, the camera
precision matrix is the 6×6 diagonal matrix whose first three diagonal
entries are `1/(camera-position sigma)²` and whose last three are
`1/(camera-pose sigma)²`; the point precision matrix is the 3×3 diagonal
matrix with every diagonal entry `1/(ground-control sigma)²`; and both
accessors depend only on the current sigma values (any two models agreeing
on the sigmas yield identical matrices at any indices), being rebuilt on
each access. -/
theorem claim_C7 (m m' : BAModel Cam) (j j' i i' : ℕ)
    (hp : m'.m_camera_position_sigma = m.m_camera_position_sigma)
    (hq : m'.m_camera_pose_sigma = m.m_camera_pose_sigma)
    (hg : m'.m_gcp_sigma = m.m_gcp_sigma) :
    (∀ r c : Fin 6, m.A_inverse_covariance j r c =
      if r = c then
        (if (r : ℕ) < 3 then 1 / m.m_camera_position_sigma ^ 2
          else 1 / m.m_camera_pose_sigma ^ 2)
      else 0) ∧
    (∀ r c : Fin 3, m.B_inverse_covariance i r c =
      if r = c then 1 / m.m_gcp_sigma ^ 2 else 0) ∧
    m.A_inverse_covariance j = m'.A_inverse_covariance j' ∧
    m.B_inverse_covariance i = m'.B_inverse_covariance i' := by
  refine ⟨?_, ?_, ?_, ?_⟩
  · intro r c
    simp only [BAModel.A_inverse_covariance, mat6Set, zeroMat6, Fin.ext_iff,
      show ((0:Fin 6):ℕ) = 0 from rfl, show ((1:Fin 6):ℕ) = 1 from rfl,
      show ((2:Fin 6):ℕ) = 2 from rfl, show ((3:Fin 6):ℕ) = 3 from rfl,
      show ((4:Fin 6):ℕ) = 4 from rfl, show ((5:Fin 6):ℕ) = 5 from rfl]
    split_ifs <;> first | rfl | (exfalso; omega)
  · intro r c
    simp only [BAModel.B_inverse_covariance, mat3Set, zeroMat3, Fin.ext_iff,
      show ((0:Fin 3):ℕ) = 0 from rfl, show ((1:Fin 3):ℕ) = 1 from rfl,
      show ((2:Fin 3):ℕ) = 2 from rfl]
    split_ifs <;> first | rfl | (exfalso; omega)
  · funext r c
    simp only [BAModel.A_inverse_covariance, mat6Set, zeroMat6, hp, hq]
  · funext r c
    simp only [BAModel.B_inverse_covariance, mat3Set, zeroMat3, hg]

/-- Witness for C7 at `exModel` against a copy of itself with different
indices. -/
theorem claim_C7_witness :
    (exModel.m_camera_position_sigma = exModel.m_camera_position_sigma ∧
      exModel.m_camera_pose_sigma = exModel.m_camera_pose_sigma ∧
      exModel.m_gcp_sigma = exModel.m_gcp_sigma) ∧
    ((∀ r c : Fin 6, exModel.A_inverse_covariance 0 r c =
      if r = c then
        (if (r : ℕ) < 3 then 1 / exModel.m_camera_position_sigma ^ 2
          else 1 / exModel.m_camera_pose_sigma ^ 2)
      else 0) ∧
    (∀ r c : Fin 3, exModel.B_inverse_covariance 0 r c =
      if r = c then 1 / exModel.m_gcp_sigma ^ 2 else 0) ∧
    exModel.A_inverse_covariance 0 = exModel.A_inverse_covariance 1 ∧
    exModel.B_inverse_covariance 0 = exModel.B_inverse_covariance 1) :=
  ⟨⟨rfl, rfl, rfl⟩, claim_C7 exModel exModel 0 1 0 1 rfl rfl rfl⟩

/-! ## Lemmas about the iteration loop -/

/-- One loop body increments the iteration counter by one. -/
theorem rbaStep_iterations (save : Bool) (st : RunState Cam) (s : SolverStep) :
    (rbaStep save st s).adjuster.iterations = st.adjuster.iterations + 1 := rfl

/-- The loop never touches the finalize counter. -/
theorem rbaGo_finalize (steps : ℕ → SolverStep) (max_iter : ℤ) (save : Bool) :
    ∀ (fuel : ℕ) (st : RunState Cam) (d ea er : ℚ),
      (rbaGo steps max_iter save fuel st d ea er).finalize_count = st.finalize_count := by
  intro fuel
  induction fuel with
  | zero =>
    intro st d ea er
    rw [rbaGo]
    split_ifs <;> rfl
  | succ f ih =>
    intro st d ea er
    rw [rbaGo]
    split_ifs <;> first | rfl | exact ih _ _ _ _

/-- The adjuster state computed by the loop does not depend on the `save`
flag: snapshot writes never influence the adjuster (and hence not the
stop decision). -/
theorem rbaGo_adjuster_save (steps : ℕ → SolverStep) (max_iter : ℤ) (save save' : Bool) :
    ∀ (fuel : ℕ) (st st' : RunState Cam) (d ea er : ℚ),
      st.adjuster = st'.adjuster →
      (rbaGo steps max_iter save fuel st d ea er).adjuster =
        (rbaGo steps max_iter save' fuel st' d ea er).adjuster := by
  intro fuel
  induction fuel with
  | zero =>
    intro st st' d ea er h
    rw [rbaGo, rbaGo, h]
    split_ifs <;> simp [h]
  | succ f ih =>
    intro st st' d ea er h
    rw [rbaGo, rbaGo, h]
    split_ifs <;> try simp [h]
    exact ih _ _ _ _ _ (by simp [rbaStep, h])

/-- The loop only appends to the two snapshot files. -/
theorem rbaGo_append_only (steps : ℕ → SolverStep) (max_iter : ℤ) (save : Bool) :
    ∀ (fuel : ℕ) (st : RunState Cam) (d ea er : ℚ),
      ∃ tc tp,
        (rbaGo steps max_iter save fuel st d ea er).snap_cam = st.snap_cam ++ tc ∧
        (rbaGo steps max_iter save fuel st d ea er).snap_pts = st.snap_pts ++ tp := by
  intro fuel
  induction fuel with
  | zero =>
    intro st d ea er
    refine ⟨[], [], ?_⟩
    rw [rbaGo]
    split_ifs <;> simp
  | succ f ih =>
    intro st d ea er
    rw [rbaGo]
    split_ifs
    · exact ⟨[], [], by simp⟩
    · exact ⟨[], [], by simp⟩
    · obtain ⟨tc, tp, hc, hp⟩ := ih (rbaStep save st (steps st.adjuster.iterations))
        (steps st.adjuster.iterations).delta (steps st.adjuster.iterations).abs_tol
        (steps st.adjuster.iterations).rel_tol
      rcases save with _ | _
      · exact ⟨tc, tp, by simpa [rbaStep] using hc, by simpa [rbaStep] using hp⟩
      · refine ⟨write_adjusted_cameras_append
            ((rbaStep true st (steps st.adjuster.iterations)).adjuster.model.a) ++ tc,
          write_points_append
            ((rbaStep true st (steps st.adjuster.iterations)).adjuster.model.b) ++ tp, ?_, ?_⟩
        · rw [hc]; simp [rbaStep]
        · rw [hp]; simp [rbaStep]

/-- The loop never changes the adjuster's lambda, control or cost
configuration. -/
theorem rbaGo_config (steps : ℕ → SolverStep) (max_iter : ℤ) (save : Bool) :
    ∀ (fuel : ℕ) (st : RunState Cam) (d ea er : ℚ),
      (rbaGo steps max_iter save fuel st d ea er).adjuster.control = st.adjuster.control ∧
      (rbaGo steps max_iter save fuel st d ea er).adjuster.lambda = st.adjuster.lambda ∧
      (rbaGo steps max_iter save fuel st d ea er).adjuster.cost = st.adjuster.cost := by
  intro fuel
  induction fuel with
  | zero =>
    intro st d ea er
    rw [rbaGo]
    split_ifs <;> exact ⟨rfl, rfl, rfl⟩
  | succ f ih =>
    intro st d ea er
    rw [rbaGo]
    split_ifs <;> first
      | exact ⟨rfl, rfl, rfl⟩
      | exact ih (rbaStep save st (steps st.adjuster.iterations)) _ _ _

/-- Characterization of the loop's final iteration count: starting at
iteration `k` with the loop variables holding the pass-`k` inputs and the
fuel equal to the remaining budget, the loop ends at the least `m ≥ k`
at which the continuation condition fails. -/
theorem rbaGo_char (steps : ℕ → SolverStep) (max_iter : ℤ) (save : Bool) :
    ∀ (fuel : ℕ) (st : RunState Cam),
      fuel = (max_iter - (st.adjuster.iterations : ℤ)).toNat →
      st.adjuster.iterations ≤
        (rbaGo steps max_iter save fuel st (inDelta steps st.adjuster.iterations)
          (inAbs steps st.adjuster.iterations)
          (inRel steps st.adjuster.iterations)).adjuster.iterations ∧
      (∀ m, st.adjuster.iterations ≤ m →
        m < (rbaGo steps max_iter save fuel st (inDelta steps st.adjuster.iterations)
          (inAbs steps st.adjuster.iterations)
          (inRel steps st.adjuster.iterations)).adjuster.iterations →
        contAt steps max_iter m) ∧
      ¬ contAt steps max_iter
        (rbaGo steps max_iter save fuel st (inDelta steps st.adjuster.iterations)
          (inAbs steps st.adjuster.iterations)
          (inRel steps st.adjuster.iterations)).adjuster.iterations := by
  intro fuel
  induction fuel with
  | zero =>
    intro st hf
    have hk : max_iter ≤ (st.adjuster.iterations : ℤ) := by omega
    have hr : rbaGo steps max_iter save 0 st (inDelta steps st.adjuster.iterations)
        (inAbs steps st.adjuster.iterations) (inRel steps st.adjuster.iterations) = st := by
      rw [rbaGo]
      split_ifs <;> rfl
    rw [hr]
    refine ⟨le_refl _, fun m hm1 hm2 => absurd hm2 (by omega), fun hc => hc.2 (Or.inl hk)⟩
  | succ f ih =>
    intro st hf
    by_cases hc : contAt steps max_iter st.adjuster.iterations
    · obtain ⟨hd, hbrk⟩ := hc
      have hunf : rbaGo steps max_iter save (f + 1) st
          (inDelta steps st.adjuster.iterations) (inAbs steps st.adjuster.iterations)
          (inRel steps st.adjuster.iterations)
          = rbaGo steps max_iter save f (rbaStep save st (steps st.adjuster.iterations))
            (inDelta steps (st.adjuster.iterations + 1))
            (inAbs steps (st.adjuster.iterations + 1))
            (inRel steps (st.adjuster.iterations + 1)) := by
        rw [rbaGo]
        rw [if_neg hd, if_neg hbrk]
        rfl
      have hlt : (st.adjuster.iterations : ℤ) < max_iter := by
        rcases lt_or_ge (st.adjuster.iterations : ℤ) max_iter with h | h
        · exact h
        · exact absurd (Or.inl h) hbrk
      have hf' : f = (max_iter -
          ((rbaStep save st (steps st.adjuster.iterations)).adjuster.iterations : ℤ)).toNat := by
        rw [rbaStep_iterations]
        omega
      have H := ih (rbaStep save st (steps st.adjuster.iterations)) hf'
      rw [rbaStep_iterations] at H
      rw [hunf]
      obtain ⟨H1, H2, H3⟩ := H
      refine ⟨by omega, ?_, H3⟩
      intro m hm1 hm2
      rcases Nat.eq_or_lt_of_le hm1 with h | h
      · rw [← h]
        exact ⟨hd, hbrk⟩
      · exact H2 m h hm2
    · have hr : rbaGo steps max_iter save (f + 1) st
          (inDelta steps st.adjuster.iterations) (inAbs steps st.adjuster.iterations)
          (inRel steps st.adjuster.iterations) = st := by
        rw [rbaGo]
        by_cases hd : inDelta steps st.adjuster.iterations = 0
        · rw [if_pos hd]
        · rw [if_neg hd]
          have hbrk : max_iter ≤ (st.adjuster.iterations : ℤ) ∨
              inAbs steps st.adjuster.iterations < mkRat 1 1000 ∨
              inRel steps st.adjuster.iterations < mkRat 1 1000 := by
            by_contra hno
            exact hc ⟨hd, hno⟩
          rw [if_pos hbrk]
      rw [hr]
      exact ⟨le_refl _, fun m hm1 hm2 => absurd hm2 (by omega), hc⟩

/-- Claim C2: Starting from a fresh adjuster (iteration count 0), the
iteration loop performs at most `max_iter` update steps (the final
iteration count is the number of updates executed); before every executed
step the continuation condition held (non-zero delta, budget not reached,
both tolerances at least `1e-3`, as seen at the top of that pass); at the
final iteration count the continuation condition fails — i.e. the loop
stopped because the last delta was 0, the budget was reached, or a
tolerance fell below `1e-3`, and it stopped at the first such pass; and on
every exit path the reporter's `end_tie_in` finalize step runs exactly
once. -/
theorem claim_C2 (steps : ℕ → SolverStep) (max_iter : ℤ) (save : Bool)
    (st : RunState Cam) (h0 : st.adjuster.iterations = 0) :
    (run_bundle_adjustment steps max_iter save st).adjuster.iterations ≤ max_iter.toNat ∧
    (∀ m, m < (run_bundle_adjustment steps max_iter save st).adjuster.iterations →
      contAt steps max_iter m) ∧
    ¬ contAt steps max_iter
      (run_bundle_adjustment steps max_iter save st).adjuster.iterations ∧
    (run_bundle_adjustment steps max_iter save st).finalize_count =
      st.finalize_count + 1 := by
  have H := rbaGo_char steps max_iter save
    ((max_iter - (st.adjuster.iterations : ℤ)).toNat) st rfl
  rw [h0] at H
  obtain ⟨H1, H2, H3⟩ := H
  have hadj : (run_bundle_adjustment steps max_iter save st).adjuster =
      (rbaGo steps max_iter save ((max_iter - ((0 : ℕ) : ℤ)).toNat) st
        (inDelta steps 0) (inAbs steps 0) (inRel steps 0)).adjuster := by
    rw [run_bundle_adjustment, h0]
    rfl
  have hfin : (run_bundle_adjustment steps max_iter save st).finalize_count =
      st.finalize_count + 1 := by
    rw [run_bundle_adjustment]
    show (rbaGo steps max_iter save _ st 2 (10 ^ 10) (10 ^ 10)).finalize_count + 1 =
      st.finalize_count + 1
    rw [rbaGo_finalize]
  rw [hadj]
  refine ⟨?_, fun m hm => H2 m (Nat.zero_le m) hm, H3, hfin⟩
  rcases Nat.eq_zero_or_pos
      ((rbaGo steps max_iter save ((max_iter - ((0 : ℕ) : ℤ)).toNat) st
        (inDelta steps 0) (inAbs steps 0) (inRel steps 0)).adjuster.iterations) with h | h
  · omega
  · have hcont := H2 _ (Nat.zero_le _) (Nat.sub_lt h Nat.one_pos)
    have hno := hcont.2
    rw [not_or] at hno
    have hlt := hno.1
    omega

/-- Witness for C2 at a concrete adjuster state with iteration count 0,
budget 3 and the always-converged solver oracle. -/
theorem claim_C2_witness :
    (RunState.mk (mkAdjuster exModel 0) [] [] 0).adjuster.iterations = 0 ∧
    ((run_bundle_adjustment exSteps 3 true
        (RunState.mk (mkAdjuster exModel 0) [] [] 0)).adjuster.iterations ≤ (3 : ℤ).toNat ∧
      (∀ m, m < (run_bundle_adjustment exSteps 3 true
          (RunState.mk (mkAdjuster exModel 0) [] [] 0)).adjuster.iterations →
        contAt exSteps 3 m) ∧
      ¬ contAt exSteps 3
        (run_bundle_adjustment exSteps 3 true
          (RunState.mk (mkAdjuster exModel 0) [] [] 0)).adjuster.iterations ∧
      (run_bundle_adjustment exSteps 3 true
          (RunState.mk (mkAdjuster exModel 0) [] [] 0)).finalize_count =
        (RunState.mk (mkAdjuster exModel 0) [] [] 0).finalize_count + 1) :=
  ⟨rfl, claim_C2 exSteps 3 true (RunState.mk (mkAdjuster exModel 0) [] [] 0) rfl⟩

/-- Inversion for a successful `BAModel.make`: the produced model is
exactly the record the constructor builds. -/
theorem make_ok_fields (cameras : List Cam) (net : ControlNetwork) (s1 s2 s3 : ℚ)
    (m : BAModel Cam) (hm : BAModel.make cameras net s1 s2 s3 = Except.ok m) :
    m = ⟨cameras, net, List.replicate cameras.length zeroVec6, net.map (·.position),
      List.replicate cameras.length zeroVec6, net.map (·.position),
      (net.map (·.measures.length)).sum, s1, s2, s3⟩ := by
  rw [BAModel.make] at hm
  split_ifs at hm
  cases hm
  rfl

/-- Claim C8: With a maximum iteration count of 0, the loop performs zero
update steps, and the final camera and point parameters equal the priors
established at construction: all-zero camera corrections and the
network's initial point positions. -/
theorem claim_C8 (cameras : List Cam) (net : ControlNetwork) (s1 s2 s3 cost : ℚ)
    (m : BAModel Cam) (hm : BAModel.make cameras net s1 s2 s3 = Except.ok m)
    (steps : ℕ → SolverStep) (save : Bool) :
    (run_bundle_adjustment steps 0 save
      (RunState.mk (mkAdjuster m cost) [] [] 0)).adjuster.iterations = 0 ∧
    (run_bundle_adjustment steps 0 save
      (RunState.mk (mkAdjuster m cost) [] [] 0)).adjuster.model.a =
        List.replicate cameras.length zeroVec6 ∧
    (run_bundle_adjustment steps 0 save
      (RunState.mk (mkAdjuster m cost) [] [] 0)).adjuster.model.b =
        net.map (·.position) := by
  have hrun : run_bundle_adjustment steps 0 save
      (RunState.mk (mkAdjuster m cost) [] [] 0) =
      RunState.mk (mkAdjuster m cost) [] [] 1 := rfl
  rw [hrun, make_ok_fields cameras net s1 s2 s3 m hm]
  exact ⟨rfl, rfl, rfl⟩

/-- Witness for C8 at the one-camera, one-point fixture. -/
theorem claim_C8_witness :
    BAModel.make [(0 : ℕ)] exNet 1 1 1 = Except.ok exModel ∧
    ((run_bundle_adjustment exSteps 0 true
        (RunState.mk (mkAdjuster exModel 0) [] [] 0)).adjuster.iterations = 0 ∧
      (run_bundle_adjustment exSteps 0 true
        (RunState.mk (mkAdjuster exModel 0) [] [] 0)).adjuster.model.a =
          List.replicate [(0 : ℕ)].length zeroVec6 ∧
      (run_bundle_adjustment exSteps 0 true
        (RunState.mk (mkAdjuster exModel 0) [] [] 0)).adjuster.model.b =
          exNet.map (·.position)) :=
  ⟨by decide, claim_C8 [(0 : ℕ)] exNet 1 1 1 0 exModel (by decide) exSteps true⟩

/-! ## Lemmas about the snapshot writers -/

/-- The point snapshot writes as many rows as there are points. -/
theorem wpaGo_length (b : List Vec3) : ∀ n, (wpaGo n b).length = b.length := by
  induction b with
  | nil => intro n; rfl
  | cons v rest ih => intro n; simp [wpaGo, ih]

/-- Row `i` of the point snapshot is the index `n + i` followed by the
full position vector of point `i`. -/
theorem wpaGo_getElem (b : List Vec3) : ∀ (n i : ℕ),
    (wpaGo n b)[i]? = b[i]?.map fun v => (n + i, v.x, v.y, v.z) := by
  induction b with
  | nil => intro n i; simp [wpaGo]
  | cons v rest ih =>
    intro n i
    cases i with
    | zero => simp [wpaGo]
    | succ j =>
      rw [show n + (j + 1) = n + 1 + j from by omega]
      simpa [wpaGo] using ih (n + 1) j

/-- The camera snapshot writes six rows per camera. -/
theorem wacaGo_length (a : List Vec6) : ∀ j, (wacaGo j a).length = 6 * a.length := by
  induction a with
  | nil => intro j; rfl
  | cons v rest ih =>
    intro j
    simp [wacaGo, cahvorRows, ih]
    omega

/-- The six CAHVOR rows depend only on the position-correction components
of the camera vector — the Euler pose components are not written. -/
theorem cahvorRows_pos (j : ℕ) (v v' : Vec6)
    (h0 : v.c0 = v'.c0) (h1 : v.c1 = v'.c1) (h2 : v.c2 = v'.c2) :
    cahvorRows j v = cahvorRows j v' := by
  simp [cahvorRows, h0, h1, h2]

/-- The whole camera snapshot depends only on the position-correction
components of the camera vectors. -/
theorem wacaGo_pos_eq (a : List Vec6) : ∀ (j : ℕ) (a' : List Vec6),
    a.length = a'.length →
    (∀ k : ℕ, a[k]?.map (fun v : Vec6 => (v.c0, v.c1, v.c2)) =
      a'[k]?.map (fun v : Vec6 => (v.c0, v.c1, v.c2))) →
    wacaGo j a = wacaGo j a' := by
  induction a with
  | nil =>
    intro j a' hlen _
    cases a' with
    | nil => rfl
    | cons v' rest' => simp at hlen
  | cons v rest ih =>
    intro j a' hlen hpos
    cases a' with
    | nil => simp at hlen
    | cons v' rest' =>
      have h0 := hpos 0
      simp [Prod.ext_iff] at h0
      have htail : ∀ k : ℕ, rest[k]?.map (fun v : Vec6 => (v.c0, v.c1, v.c2)) =
          rest'[k]?.map (fun v : Vec6 => (v.c0, v.c1, v.c2)) := by
        intro k
        have := hpos (k + 1)
        simpa using this
      rw [wacaGo, wacaGo, cahvorRows_pos j v v' h0.1 h0.2.1 h0.2.2,
        ih (j + 1) rest' (by simpa using hlen) htail]

/-- Claim C6, counterexample:  For a single camera whose parameter vector is
`(1,2,3,4,5,6)`, one snapshot append emits six rows — not one row per
camera — and the rows hold only the position correction `(1,2,3)` together
with constant CAHVOR vectors: the pose components `4,5,6` appear nowhere,
so the full camera-parameter vector is not written. -/
theorem claim_C6_counterexample :
    write_adjusted_cameras_append [⟨1, 2, 3, 4, 5, 6⟩] =
      [(0, 1, 2, 3), (0, 1, 0, 0), (0, 0, 1, 0), (0, 0, 0, 1), (0, 0, 0, 0), (0, 0, 0, 0)] ∧
    (write_adjusted_cameras_append [⟨1, 2, 3, 4, 5, 6⟩]).length ≠ 1 := by
  decide

/-- Claim C6, amended:  When snapshotting is enabled, after every successful
step the point parameters are appended as one indexed row per point
holding the full position vector; the camera parameters are appended as
six indexed rows per camera which depend only on the position-correction
components (the Euler pose components are never written); the snapshot
writes never influence the adjuster — and hence not the stop decision —
and both snapshot files are append-only. -/
theorem claim_C6_amended (steps : ℕ → SolverStep) (max_iter : ℤ) (st : RunState Cam)
    (b : List Vec3) (i : ℕ) (a a' : List Vec6)
    (hlen : a.length = a'.length)
    (hpos : ∀ k : ℕ, a[k]?.map (fun v : Vec6 => (v.c0, v.c1, v.c2)) =
      a'[k]?.map (fun v : Vec6 => (v.c0, v.c1, v.c2))) :
    (write_points_append b).length = b.length ∧
    (write_points_append b)[i]? = b[i]?.map (fun v : Vec3 => (i, v.x, v.y, v.z)) ∧
    (write_adjusted_cameras_append a).length = 6 * a.length ∧
    write_adjusted_cameras_append a = write_adjusted_cameras_append a' ∧
    (run_bundle_adjustment steps max_iter true st).adjuster =
      (run_bundle_adjustment steps max_iter false st).adjuster ∧
    (∃ tc tp,
      (run_bundle_adjustment steps max_iter true st).snap_cam = st.snap_cam ++ tc ∧
      (run_bundle_adjustment steps max_iter true st).snap_pts = st.snap_pts ++ tp) := by
  refine ⟨wpaGo_length b 0, ?_, wacaGo_length a 0, wacaGo_pos_eq a 0 a' hlen hpos, ?_, ?_⟩
  · rw [write_points_append, wpaGo_getElem b 0 i]
    simp
  · exact rbaGo_adjuster_save steps max_iter true false
      ((max_iter - (st.adjuster.iterations : ℤ)).toNat) st st 2 (10 ^ 10) (10 ^ 10) rfl
  · obtain ⟨tc, tp, hc, hp⟩ := rbaGo_append_only steps max_iter true
      ((max_iter - (st.adjuster.iterations : ℤ)).toNat) st 2 (10 ^ 10) (10 ^ 10)
    exact ⟨tc, tp, hc, hp⟩

/-- Witness for C6 (amended) at the one-camera fixture. -/
theorem claim_C6_amended_witness :
    ([⟨1, 2, 3, 4, 5, 6⟩] : List Vec6).length = ([⟨1, 2, 3, 4, 5, 6⟩] : List Vec6).length ∧
    ((write_points_append [(⟨1, 2, 3⟩ : Vec3)]).length = [(⟨1, 2, 3⟩ : Vec3)].length ∧
      (write_points_append [(⟨1, 2, 3⟩ : Vec3)])[0]? =
        ([(⟨1, 2, 3⟩ : Vec3)])[0]?.map (fun v : Vec3 => (0, v.x, v.y, v.z)) ∧
      (write_adjusted_cameras_append [⟨1, 2, 3, 4, 5, 6⟩]).length =
        6 * ([⟨1, 2, 3, 4, 5, 6⟩] : List Vec6).length ∧
      write_adjusted_cameras_append [⟨1, 2, 3, 4, 5, 6⟩] =
        write_adjusted_cameras_append [⟨1, 2, 3, 4, 5, 6⟩] ∧
      (run_bundle_adjustment exSteps 1 true
        (RunState.mk (mkAdjuster exModel 0) [] [] 0)).adjuster =
        (run_bundle_adjustment exSteps 1 false
          (RunState.mk (mkAdjuster exModel 0) [] [] 0)).adjuster ∧
      (∃ tc tp,
        (run_bundle_adjustment exSteps 1 true
          (RunState.mk (mkAdjuster exModel 0) [] [] 0)).snap_cam = [] ++ tc ∧
        (run_bundle_adjustment exSteps 1 true
          (RunState.mk (mkAdjuster exModel 0) [] [] 0)).snap_pts = [] ++ tp)) :=
  ⟨rfl, claim_C6_amended exSteps 1 (RunState.mk (mkAdjuster exModel 0) [] [] 0)
    [(⟨1, 2, 3⟩ : Vec3)] 0 [⟨1, 2, 3, 4, 5, 6⟩] [⟨1, 2, 3, 4, 5, 6⟩] rfl (fun _ => rfl)⟩

/-- Claim C3: Evaluation of the outlier cycle at a configuration with
`control = 1`, a user lambda, and outlier removal enabled: the first-pass
adjuster holds `some 1` as its control setting (it receives the
`set_control` call twice — the second-pass block applies `set_control` to
the *first-pass* adjuster again), while the second-pass adjuster is left
at `none` (the solver library's default) even though it does receive the
user lambda `some 5` and the same cost value.  The claim that the second
fit runs with the same control setting fails; the spec states the clear
intent and the code's `bundle_adjuster.set_control` (instead of
`bundle_adjuster_no_outliers.set_control`) is a slip. -/
theorem claim_C3_code_bug :
    (adjust_bundles exModel 0 exCfgControl exSteps exSteps exWorldOk exNet).map
      (fun r => (r.first.adjuster.control,
        r.second.map fun s2 => (s2.adjuster.control, s2.adjuster.lambda, s2.adjuster.cost)))
    = Except.ok (some 1, some (none, some 5, 0)) := by
  decide

/-- Claim C4: When outlier removal runs, the reloading step builds a
brand-new model bound to the filtered network using the same camera list
as the first-pass model and the same three sigma values; its point
parameters and targets are initialized from the positions stored in the
filtered network — independently of the first pass's converged values —
and its camera adjustments and targets are all zeros. -/
theorem claim_C4 (ba_model : BAModel Cam) (cost : ℚ) (config : AdjustConfig)
    (steps1 steps2 : ℕ → SolverStep) (w : OutlierWorld) (net : ControlNetwork)
    (res : AdjustResult Cam) (m2 : BAModel Cam)
    (hs1 : ba_model.m_camera_position_sigma = config.camera_position_sigma)
    (hs2 : ba_model.m_camera_pose_sigma = config.camera_pose_sigma)
    (hs3 : ba_model.m_gcp_sigma = config.gcp_sigma)
    (hres : adjust_bundles ba_model cost config steps1 steps2 w net = Except.ok res)
    (hm2 : res.model2_initial = some m2) :
    m2.m_cameras = ba_model.m_cameras ∧
    m2.m_network = net ∧
    m2.m_camera_position_sigma = ba_model.m_camera_position_sigma ∧
    m2.m_camera_pose_sigma = ba_model.m_camera_pose_sigma ∧
    m2.m_gcp_sigma = ba_model.m_gcp_sigma ∧
    m2.a = List.replicate ba_model.m_cameras.length zeroVec6 ∧
    m2.a_target = List.replicate ba_model.m_cameras.length zeroVec6 ∧
    m2.b = net.map (·.position) ∧
    m2.b_target = net.map (·.position) := by
  by_cases hrem : config.remove_outliers
  · simp only [adjust_bundles, hrem, if_true] at hres
    cases hw : remove_outliers w with
    | error e =>
      rw [hw] at hres
      cases hres
    | ok u =>
      rw [hw] at hres
      cases hmk : BAModel.make ba_model.cameras net
          config.camera_position_sigma config.camera_pose_sigma config.gcp_sigma with
      | error e =>
        rw [hmk] at hres
        cases hres
      | ok mk2 =>
        rw [hmk] at hres
        cases hres
        simp only [AdjustResult.model2_initial, Option.some.injEq] at hm2
        subst hm2
        have hfields := make_ok_fields ba_model.cameras net
          config.camera_position_sigma config.camera_pose_sigma config.gcp_sigma mk2 hmk
        subst hfields
        exact ⟨rfl, rfl, hs1.symm, hs2.symm, hs3.symm, rfl, rfl, rfl, rfl⟩
  · simp only [adjust_bundles, hrem, if_false] at hres
    cases hres
    cases hm2

/-- Witness for C4 at the one-camera fixture with a zero iteration
budget. -/
theorem claim_C4_witness :
    (exModel.m_camera_position_sigma = exCfgPlain.camera_position_sigma ∧
      exModel.m_camera_pose_sigma = exCfgPlain.camera_pose_sigma ∧
      exModel.m_gcp_sigma = exCfgPlain.gcp_sigma) ∧
    adjust_bundles exModel 0 exCfgPlain exSteps exSteps exWorldOk exNet =
      Except.ok exResPlain ∧
    exResPlain.model2_initial = some exModel ∧
    (exModel.m_cameras = exModel.m_cameras ∧
      exModel.m_network = exNet ∧
      exModel.m_camera_position_sigma = exModel.m_camera_position_sigma ∧
      exModel.m_camera_pose_sigma = exModel.m_camera_pose_sigma ∧
      exModel.m_gcp_sigma = exModel.m_gcp_sigma ∧
      exModel.a = List.replicate exModel.m_cameras.length zeroVec6 ∧
      exModel.a_target = List.replicate exModel.m_cameras.length zeroVec6 ∧
      exModel.b = exNet.map (·.position) ∧
      exModel.b_target = exNet.map (·.position)) :=
  ⟨⟨rfl, rfl, rfl⟩, by decide, by decide,
    claim_C4 exModel 0 exCfgPlain exSteps exSteps exWorldOk exNet exResPlain exModel
      rfl rfl rfl (by decide) (by decide)⟩

end BaTest
